import Mathlib

/-!
# Verification of the xinput2 tablet backend

A shallow embedding of the xinput2 platform backend
(`src/platform/xinput2/mod.rs`): device classification, the tool phase
state machine, the axis-transform derivation, the event pump and the
timeout-driven event synthesis.

Modelling conventions:
* Rust strings are modelled as `List Char`; the byte/char distinction is
  immaterial for the names handled here.
* Machine integers (`u16`, `u32`, `Timestamp`, …) are modelled as `Nat`
  (or `Int` for `i32`), with range checks made explicit where the source
  performs a fallible conversion.
* `f32` arithmetic is modelled over an abstract linear ordered field `R`,
  instantiated at `ℚ` for concrete evaluation and at `ℝ` for the theorems
  about the irrational constants (`1.0f32.to_radians()`, `TAU`), which are
  threaded through as parameters `degToRad` and `tau`.
* The X server connection is modelled as a `Snapshot`: the replies the
  server would give to the queries the code performs (device lists, atom
  names, property fetches, grab outcomes).
* `Vec::push` into the shared event buffer is modelled by returning the
  pushed segment and appending it at the call site; `BTreeMap` is modelled
  as an association list (iteration order differs from the sorted order of
  the map, which no property here depends on).
-/

namespace XI2

/-- If this many milliseconds since last ring interaction, emit an Out event. -/
def RING_TIMEOUT_MS : Nat := 200

/-- If this many milliseconds since last tool interaction, emit an Out event. -/
def TOOL_TIMEOUT_MS : Nat := 500

/-- `XI_ALL_MASTER_DEVICES`, the wildcard device id used in the combined
enter/leave/focus interest mask. -/
def XI_ALL_MASTER_DEVICES : Nat := 1

/-- Name given to the synthetic tablet record. -/
def EMULATED_TABLET_NAME : List Char := "octotablet emulated".toList

/-- An xinput 32.32 fixed-point number: `integral` is an `i32`, `frac` a `u32`. -/
structure Fp3232 where
  integral : Int
  frac : Nat
deriving DecidableEq

/-- Generation-tagged device identity (`enum ID`). `EmulatedTablet` is the
sentinel for the synthetic tablet; real devices carry a generation and the
raw (nonzero) xinput device id. -/
inductive ID where
  | EmulatedTablet : ID
  | id (generation : Nat) (device_id : Nat) : ID
deriving DecidableEq

/-- Tool interaction phase. -/
inductive Phase where
  | In : Phase
  | Down : Phase
  | Out : Phase
deriving DecidableEq

/-- `crate::tool::Type` restricted to the variants this backend produces. -/
inductive ToolType where
  | Pen : ToolType
  | Eraser : ToolType
deriving DecidableEq

/-- The semantic axis labels this backend recognises (`enum ValuatorAxis`). -/
inductive ValuatorAxis where
  | AbsPressure : ValuatorAxis
  | AbsTiltX : ValuatorAxis
  | AbsTiltY : ValuatorAxis
  | AbsWheel : ValuatorAxis
deriving DecidableEq

/-- `ValuatorAxis::from_str`: match on the axis label string. -/
def parseValuatorAxis (axis_label : List Char) : Option ValuatorAxis :=
  if axis_label = "Abs Pressure".toList then some ValuatorAxis.AbsPressure
  else if axis_label = "Abs Tilt X".toList then some ValuatorAxis.AbsTiltX
  else if axis_label = "Abs Tilt Y".toList then some ValuatorAxis.AbsTiltY
  else if axis_label = "Abs Wheel".toList then some ValuatorAxis.AbsWheel
  else none

/-- Device role as inferred from the type atom (`enum DeviceType`). -/
inductive DeviceType where
  | Tool (ty : ToolType) : DeviceType
  | Tablet : DeviceType
  | Pad : DeviceType
deriving DecidableEq

/-- `enum DeviceTypeOrXwayland`. -/
inductive DeviceTypeOrXwayland where
  | type (t : DeviceType) : DeviceTypeOrXwayland
  | Xwayland : DeviceTypeOrXwayland
deriving DecidableEq

/-- `DeviceTypeOrXwayland::from_str`: resolve the device-type atom string. -/
def parseDeviceType (device_type : List Char) : Option DeviceTypeOrXwayland :=
  if device_type = "STYLUS".toList then some (.type (.Tool .Pen))
  else if device_type = "ERASER".toList then some (.type (.Tool .Eraser))
  else if device_type = "PAD".toList then some (.type .Pad)
  else if device_type = "TABLET".toList then some (.type .Tablet)
  else if device_type = "xwayland-pointer".toList then some .Xwayland
  else none

/-! ## String helpers

Faithful models of the `str` methods the parser uses, over `List Char`. -/

/-- Rust `u8::is_ascii_whitespace`: space, tab, line feed, form feed,
carriage return. -/
def isAsciiWhitespace (c : Char) : Bool :=
  c = ' ' || c = '\t' || c = '\n' || c = '\x0c' || c = '\r'

/-- Rust `str::trim_ascii_end`. -/
def trimAsciiEnd (s : List Char) : List Char :=
  (s.reverse.dropWhile isAsciiWhitespace).reverse

/-- Index of the last occurrence of `c` in `s` (Rust `str::rfind`). -/
def rfindIdx (c : Char) (s : List Char) : Option Nat :=
  (s.reverse.findIdx? (fun d => d = c)).map (fun j => s.length - 1 - j)

/-- Index of the first occurrence of `c` in `s` (Rust `str::find`). -/
def findIdx (c : Char) (s : List Char) : Option Nat :=
  s.findIdx? (fun d => d = c)

/-- Rust `str::strip_prefix` by a literal pattern: `some` of the remainder
when `pat` starts `s`. -/
def stripLeading : List Char → List Char → Option (List Char)
  | [], s => some s
  | _ :: _, [] => none
  | p :: ps, c :: cs => if p = c then stripLeading ps cs else none

/-- Rust `str::strip_suffix` by a literal pattern. -/
def stripSuffix (pat s : List Char) : Option (List Char) :=
  (stripLeading pat.reverse s.reverse).map List.reverse

/-- Value of a hexadecimal digit, as accepted by `u64::from_str_radix(_, 16)`. -/
def hexDigitVal (c : Char) : Option Nat :=
  if '0' ≤ c ∧ c ≤ '9' then some (c.toNat - '0'.toNat)
  else if 'a' ≤ c ∧ c ≤ 'f' then some (c.toNat - 'a'.toNat + 10)
  else if 'A' ≤ c ∧ c ≤ 'F' then some (c.toNat - 'A'.toNat + 10)
  else none

/-- `u64::from_str_radix(s, 16)`: an optional leading `+`, then at least one
hex digit; fails on any other character or on overflow past `u64`. -/
def fromStrRadix16 (s : List Char) : Option Nat :=
  let digits := match s with
    | '+' :: rest => rest
    | _ => s
  if digits.isEmpty then none
  else digits.foldlM
    (fun acc c => (hexDigitVal c).bind
      (fun v => if acc * 16 + v < 2 ^ 64 then some (acc * 16 + v) else none))
    0

/-! ## Tool-name parsing (`parse_tool_name`) -/

/-- The fields parsed out of a tool's user-facing device name
(`struct ToolName`). The hardware id payload is the `u64` inside
`crate::tool::HardwareID`. -/
structure ToolName where
  human_readable : List Char
  maybe_associated_tablet : Option (List Char)
  id : Option Nat
deriving DecidableEq

/-- `parse_tool_name`: heuristic grammar
`<free text>(<0 | 0x-hex>)`. The parenthesised suffix, when well formed, is
the hardware serial; the human-readable name is the text before it with
trailing ASCII whitespace trimmed; the candidate owning-tablet name is the
human-readable name minus a trailing tool-type suffix. -/
def parseToolName (name : List Char) : ToolName :=
  let tryParseId : Option (List Char × Nat) :=
    (rfindIdx '(' name).bind (fun open_paren =>
      let after_open_paren := open_paren + 1
      (findIdx ')' (name.drop after_open_paren)).bind (fun rel =>
        let close_paren := after_open_paren + rel
        let name_text := trimAsciiEnd (name.take open_paren)
        let id_text := (name.take close_paren).drop after_open_paren
        let id_num : Option Nat :=
          if id_text = "0".toList then some 0
          else match stripLeading ("0x".toList) id_text with
            | some rest => fromStrRadix16 rest
            | none => none
        id_num.map (fun n => (name_text, n))))
  let human_readable := match tryParseId with
    | some (n, _) => n
    | none => name
  let id : Option Nat := match tryParseId with
    | some (_, i) => some i
    | none => none
  let maybe_associated_tablet : Option (List Char) :=
    match stripSuffix (" Pen".toList) human_readable with
    | some tablet_name => some tablet_name
    | none =>
      match stripSuffix (" Eraser".toList) human_readable with
      | some tablet_name => some tablet_name
      | none => none
  { human_readable := human_readable
    maybe_associated_tablet := maybe_associated_tablet
    id := id }

/-- `pad_maybe_associated_tablet`: strip a trailing `" Pad"` and append
`" Pen"`. -/
def padMaybeAssociatedTablet (name : List Char) : Option (List Char) :=
  (stripSuffix (" Pad".toList) name).map (fun p => p ++ " Pen".toList)

/-- `xwayland_type_from_name`: parse the device role out of an xwayland
device name of the shape `xwayland-tablet<class>:<number>`. -/
def xwaylandTypeFromName (device_name : List Char) : Option DeviceType :=
  (stripLeading ("xwayland-tablet".toList) device_name).bind (fun cls =>
    (rfindIdx ':' cls).bind (fun colon =>
      let cls := cls.take colon
      if cls = "-pad".toList then some DeviceType.Pad
      else if cls = " stylus".toList then some (DeviceType.Tool .Pen)
      else if cls = " eraser".toList then some (DeviceType.Tool .Eraser)
      else none))

/-! ## Numeric conversions and axis transforms

`f32` arithmetic is modelled over an abstract linear ordered field `R`.
The two irrational constants the source uses — `1.0f32.to_radians()` and
`std::f32::consts::TAU` — are threaded through as parameters `degToRad`
and `tau`, instantiated at `Real.pi / 180` and `2 * Real.pi` in the
real-valued theorems. -/

variable {R : Type} [LinearOrderedField R]

/-- `fixed32_to_f32`: the integral part is cast, the fractional part is
`frac / (u32::MAX + 1)`; it is added when the integral part
`is_positive()` (strictly positive) and subtracted otherwise. -/
def fixed32ToF32 (fixed : Fp3232) : R :=
  let integral : R := (fixed.integral : R)
  let fractional : R := (fixed.frac : R) / 2 ^ 32
  if 0 < fixed.integral then integral + fractional else integral - fractional

/-- `fixed16_to_f32`: a 16.16 fixed-point `i32` divided by `65536.0`. -/
def fixed16ToF32 (fixed : Int) : R :=
  (fixed : R) / 65536

/-- `enum Transform`: the affine bias/scale transform. -/
inductive Transform (R : Type) where
  | BiasScale (bias scale : R) : Transform R
deriving DecidableEq

/-- `Transform::transform`: `(value + bias) * scale`. -/
def Transform.transform : Transform R → R → R
  | .BiasScale bias scale, value => (value + bias) * scale

/-- `Transform::transform_fixed`. -/
def Transform.transformFixed (t : Transform R) (value : Fp3232) : R :=
  t.transform (fixed32ToF32 value)

/-- Transform recorded for a pressure valuator: scale and bias `[min,max]`
to `[0,1]` (`bias = -min`, `scale = 1 / (max - min)`). -/
def pressureTransform (min max : R) : Transform R :=
  .BiasScale (-min) (1 / (max - min))

/-- Transform recorded for a tilt valuator: bias `0`, scale
`1.0f32.to_radians()` (degrees to radians). -/
def tiltTransform (degToRad : R) : Transform R :=
  .BiasScale 0 degToRad

/-- Transform recorded for a pad-ring (`Abs Wheel`) valuator: remap
`[min,max]` by `bias = -min`, `scale = TAU / (max - min)`. -/
def ringTransform (tau min max : R) : Transform R :=
  .BiasScale (-min) (tau / (max - min))

/-- `struct AxisInfo`: position in the valuator array plus the value
transform. -/
structure AxisInfo (R : Type) where
  index : Nat
  transform : Transform R
deriving DecidableEq

/-! ## Raw events (`crate::events::raw`), restricted to the variants this
backend emits. `FrameTimestamp(Duration::from_millis(t))` payloads are
modelled by the millisecond count `t` itself. -/

/-- Pose fields a tool motion event can carry. Fields the backend always
emits as the "absent" sentinel (`NicheF32::NONE` / `None`) are kept so the
construction site mirrors the source. -/
structure Pose (R : Type) where
  position : R × R
  distance : Option R
  pressure : Option R
  button_pressure : Option R
  tilt : Option (R × R)
  roll : Option R
  wheel : Option (R × Int)
  slider : Option R
  contact_size : Option (R × R)
deriving DecidableEq

/-- `raw::ToolEvent`. -/
inductive ToolEvent (R : Type) where
  | In (tablet : ID) : ToolEvent R
  | Out : ToolEvent R
  | Down : ToolEvent R
  | Up : ToolEvent R
  | Pose (pose : Pose R) : ToolEvent R
  | Button (button_id : Nat) (pressed : Bool) : ToolEvent R
  | Frame (time : Option Nat) : ToolEvent R
deriving DecidableEq

/-- `crate::events::TouchStripEvent`, the per-ring events. -/
inductive TouchStripEvent (R : Type) where
  | Pose (value : R) : TouchStripEvent R
  | Up : TouchStripEvent R
  | Frame (time : Option Nat) : TouchStripEvent R
deriving DecidableEq

/-- `raw::PadGroupEvent`. -/
inductive PadGroupEvent (R : Type) where
  | Ring (ring : ID) (event : TouchStripEvent R) : PadGroupEvent R
deriving DecidableEq

/-- `raw::PadEvent`. -/
inductive PadEvent (R : Type) where
  | Enter (tablet : ID) : PadEvent R
  | Button (button_idx : Nat) (pressed : Bool) : PadEvent R
  | Group (group : ID) (event : PadGroupEvent R) : PadEvent R
deriving DecidableEq

/-- `raw::Event<ID>`. -/
inductive RawEvent (R : Type) where
  | Tool (tool : ID) (event : ToolEvent R) : RawEvent R
  | Pad (pad : ID) (event : PadEvent R) : RawEvent R
deriving DecidableEq

/-! ## Per-tool and per-pad interaction state -/

/-- `struct ToolInfo`: per-tool transform table and interaction state.
The source's `tilt: [Option<AxisInfo>; 2]` array is modelled as the two
fields `tilt0`, `tilt1`. -/
structure ToolInfo (R : Type) where
  pressure : Option (AxisInfo R)
  tilt0 : Option (AxisInfo R)
  tilt1 : Option (AxisInfo R)
  wheel : Option (AxisInfo R)
  tablet : ID
  phase : Phase
  master_pointer : Nat
  master_keyboard : Nat
  grabbed : Bool
  frame_pending : Option Nat
  last_interaction : Option Nat
deriving DecidableEq

/-- `struct RingInfo`. -/
structure RingInfo (R : Type) where
  axis : AxisInfo R
  last_interaction : Option Nat
deriving DecidableEq

/-- `struct PadInfo`. -/
structure PadInfo (R : Type) where
  ring : Option (RingInfo R)
  tablet : ID
  master_pointer : Nat
  master_keyboard : Nat
  grabbed : Bool
deriving DecidableEq

/-- `ToolInfo::take_timeout`: when a last-interaction stamp is set, lies in
the past, and is at least `TOOL_TIMEOUT_MS` old, clear it and report
`true`. -/
def ToolInfo.takeTimeout (tool : ToolInfo R) (now : Nat) : ToolInfo R × Bool :=
  match tool.last_interaction with
  | none => (tool, false)
  | some interaction =>
    if now < interaction then (tool, false)
    else if TOOL_TIMEOUT_MS ≤ now - interaction then
      ({ tool with last_interaction := none }, true)
    else (tool, false)

/-- `RingInfo::take_timeout`: same shape as the tool timeout at
`RING_TIMEOUT_MS`. -/
def RingInfo.takeTimeout (ring : RingInfo R) (now : Nat) : RingInfo R × Bool :=
  match ring.last_interaction with
  | none => (ring, false)
  | some interaction =>
    if now < interaction then (ring, false)
    else if RING_TIMEOUT_MS ≤ now - interaction then
      ({ ring with last_interaction := none }, true)
    else (ring, false)

/-- The atomic transitions `set_phase` can emit (`enum Transition`). -/
inductive PhaseTransition where
  | In : PhaseTransition
  | Down : PhaseTransition
  | Out : PhaseTransition
  | Up : PhaseTransition
deriving DecidableEq

/-- `ToolInfo::set_phase`: store the requested phase and emit the ordered
atomic transitions needed to reach it. The returned list is the segment
pushed onto the shared event buffer. -/
def ToolInfo.setPhase (tool : ToolInfo R) (self_id : ID) (phase : Phase) :
    ToolInfo R × List (RawEvent R) :=
  let changes : List PhaseTransition :=
    match tool.phase, phase with
    | .Down, .Out => [.Up, .Out]
    | .Down, .In => [.Up]
    | .Down, .Down => []
    | .In, .Out => [.Out]
    | .In, .In => []
    | .In, .Down => [.Down]
    | .Out, .Out => []
    | .Out, .In => [.In]
    | .Out, .Down => [.In, .Down]
  ({ tool with phase := phase },
   changes.map (fun change =>
     RawEvent.Tool self_id
       (match change with
        | .In => ToolEvent.In tool.tablet
        | .Out => ToolEvent.Out
        | .Down => ToolEvent.Down
        | .Up => ToolEvent.Up)))

/-- `ToolInfo::ensure_in`: if the tool is `Out`, move it `In` and emit the
`In` event; no effect otherwise. -/
def ToolInfo.ensureIn (tool : ToolInfo R) (self_id : ID) :
    ToolInfo R × List (RawEvent R) :=
  if tool.phase = Phase.Out then
    ({ tool with phase := Phase.In },
     [RawEvent.Tool self_id (ToolEvent.In tool.tablet)])
  else (tool, [])

/-! ## Public records exposed to the caller

Restricted to the fields this backend actually populates; axes the backend
never sets (`distance`, `roll`, `wheel`, `slider`, …) are omitted from
`FullInfo` because every classification pass leaves them at their default
`None`. -/

/-- `crate::axis::NormalizedInfo`. -/
structure NormalizedInfo where
  granularity : Option Nat
deriving DecidableEq

/-- `crate::axis::Limits`. -/
structure Limits (R : Type) where
  min : R
  max : R
deriving DecidableEq

/-- `crate::axis::Info`. -/
structure AxisInfoPub (R : Type) where
  limits : Option (Limits R)
  granularity : Option Nat
deriving DecidableEq

/-- `crate::axis::FullInfo`, restricted to the axes this backend sets. -/
structure FullInfo (R : Type) where
  pressure : Option NormalizedInfo
  tilt : Option (AxisInfoPub R)
deriving DecidableEq

/-- `crate::tool::Tool`. -/
structure Tool (R : Type) where
  internal_id : ID
  name : Option (List Char)
  hardware_id : Option Nat
  wacom_id : Option Nat
  tool_type : Option ToolType
  axes : FullInfo R
deriving DecidableEq

/-- `crate::pad::Ring`. -/
structure Ring where
  granularity : Option Nat
  internal_id : ID
deriving DecidableEq

/-- `crate::pad::Group`. -/
structure Group where
  buttons : List Nat
  feedback : Option Nat
  internal_id : ID
  mode_count : Option Nat
  rings : List Ring
  strips : List Unit
deriving DecidableEq

/-- `crate::pad::Pad`. -/
structure Pad where
  internal_id : ID
  total_buttons : Nat
  groups : List Group
deriving DecidableEq

/-- `crate::tablet::UsbId`. -/
structure UsbId where
  vid : Nat
  pid : Nat
deriving DecidableEq

/-- `crate::tablet::Tablet`. -/
structure Tablet where
  internal_id : ID
  name : Option (List Char)
  usb_id : Option UsbId
deriving DecidableEq

/-! ## The server snapshot

The replies the X server would give to the requests the backend issues.
The two device-description queries (`xi_query_device` and
`list_input_devices`) are both present; atom-name resolution, the
product-id property fetch and grab/ungrab outcomes are lookup functions.
Names are already strings (`String::from_utf8` is modelled as always
succeeding). -/

/-- `xinput::DeviceType` (the topology role from `xi_query_device`). -/
inductive XiDeviceType where
  | MasterPointer : XiDeviceType
  | MasterKeyboard : XiDeviceType
  | SlavePointer : XiDeviceType
  | SlaveKeyboard : XiDeviceType
  | FloatingSlave : XiDeviceType
deriving DecidableEq

/-- A valuator class from `xi_query_device` (`xinput::ValuatorClass`). -/
structure ValuatorClass where
  mode_absolute : Bool
  label : Nat
  min : Fp3232
  max : Fp3232
  number : Nat
deriving DecidableEq

/-- `xinput::DeviceClassData`, restricted to the variants inspected. -/
inductive DeviceClassData where
  | Button (num_buttons : Nat) : DeviceClassData
  | Valuator (v : ValuatorClass) : DeviceClassData
  | other : DeviceClassData
deriving DecidableEq

/-- One entry of the `xi_query_device` reply (`xinput::XIDeviceInfo`). -/
structure QueryInfo where
  deviceid : Nat
  type_ : XiDeviceType
  attachment : Nat
  name : List Char
  classes : List DeviceClassData
deriving DecidableEq

/-- One entry of the `list_input_devices` device list. The parallel flat
axis-info list of that reply is consumed but never read by the source
(`let _infos = …`), so it is not modelled. -/
structure ListDeviceInfo where
  device_id : Nat
  device_type : Nat
deriving DecidableEq

/-- The property-fetch payload (`xinput::XIGetPropertyItems`). -/
inductive PropItems where
  | Data8 (d : List Nat) : PropItems
  | Data16 (d : List Nat) : PropItems
  | Data32 (d : List Nat) : PropItems
  | InvalidValue : PropItems

/-- The server's side of every round trip the backend performs. -/
structure Snapshot where
  /-- `xi_query_device(XI_ALL_DEVICES)` reply. -/
  queries : List QueryInfo
  /-- `list_input_devices` reply: names zipped with device records. -/
  devices : List (List Char × ListDeviceInfo)
  /-- `get_atom_name`, already UTF-8 decoded; `none` for any failure. -/
  atomName : Nat → Option (List Char)
  /-- `xi_get_property` for the product id, per (device, atom). -/
  usbProp : Nat → Nat → Option PropItems
  /-- Whether `xi_grab_device` for (device, time) reports success. -/
  grabOk : Nat → Nat → Bool
  /-- Whether `xi_ungrab_device` for (device, time) succeeds. -/
  ungrabOk : Nat → Nat → Bool

/-- Decode the vendor/product id pair from the property payload, accepting
8/16/32-bit-per-item encodings (the 32-bit case narrows through `u16`). -/
def decodeUsbId : PropItems → Option UsbId
  | .Data16 d => (d[0]?).bind (fun v => (d[1]?).map (fun p => ⟨v, p⟩))
  | .Data8 d => (d[0]?).bind (fun v => (d[1]?).map (fun p => ⟨v, p⟩))
  | .Data32 d => (d[0]?).bind (fun v => (d[1]?).bind (fun p =>
      if v < 2 ^ 16 ∧ p < 2 ^ 16 then some ⟨v, p⟩ else none))
  | .InvalidValue => none

/-! ## The classification pass (`Manager::repopulate`) -/

/-- Find the master keyboard tied to a master pointer: the `attachment` of
the query record whose id equals the given attachment, defaulting to 0. -/
def masterKeyboardOf (queries : List QueryInfo) (attachment : Nat) : Nat :=
  (queries.findSome? (fun q =>
    if q.deviceid = attachment then some q.attachment else none)).getD 0

/-- Find the device whose name matches the expected owning-tablet name and
build its generation-tagged id. -/
def findTabletIdByName (queries : List QueryInfo) (generation : Nat)
    (expected : List Char) : Option ID :=
  (queries.find? (fun info => info.name = expected)).map
    (fun info => ID.id generation info.deviceid)

/-- One step of the tool valuator scan: an absolute valuator with a
non-degenerate range and a recognised label records its `AxisInfo` and the
matching public capability descriptor. Mirrors the per-class body of the
`for class in &query.classes` loop in the tool branch. -/
def scanToolClass (atomName : Nat → Option (List Char)) (degToRad : R)
    (acc : ToolInfo R × Tool R) (cls : DeviceClassData) : ToolInfo R × Tool R :=
  match cls with
  | .Valuator v =>
    if ¬v.mode_absolute then acc
    else if v.min = v.max then acc
    else
      match (atomName v.label).bind parseValuatorAxis with
      | none => acc
      | some label =>
        let x11_info := acc.1
        let octotablet_info := acc.2
        let min : R := fixed32ToF32 v.min
        let max : R := fixed32ToF32 v.max
        match label with
        | .AbsPressure =>
          ({ x11_info with pressure := some ⟨v.number, pressureTransform min max⟩ },
           { octotablet_info with axes :=
              { octotablet_info.axes with pressure := some ⟨none⟩ } })
        | .AbsTiltX =>
          let x11_info :=
            { x11_info with tilt0 := some ⟨v.number, tiltTransform degToRad⟩ }
          -- The source converts twice: once into the locals used for the
          -- union, and once more when building the fresh `Limits`.
          let min := min * degToRad
          let max := max * degToRad
          let new_info : AxisInfoPub R :=
            { limits := some ⟨min * degToRad, max * degToRad⟩, granularity := none }
          let tilt := match octotablet_info.axes.tilt with
            | none => some new_info
            | some t =>
              match t.limits with
              | none => some { t with limits := new_info.limits }
              | some lim =>
                some { t with limits := some ⟨Min.min lim.min min, Max.max lim.max max⟩ }
          (x11_info,
           { octotablet_info with axes := { octotablet_info.axes with tilt := tilt } })
        | .AbsTiltY =>
          let x11_info :=
            { x11_info with tilt1 := some ⟨v.number, tiltTransform degToRad⟩ }
          let min := min * degToRad
          let max := max * degToRad
          let new_info : AxisInfoPub R :=
            { limits := some ⟨min * degToRad, max * degToRad⟩, granularity := none }
          let tilt := match octotablet_info.axes.tilt with
            | none => some new_info
            | some t =>
              match t.limits with
              | none => some { t with limits := new_info.limits }
              | some lim =>
                some { t with limits := some ⟨Min.min lim.min min, Max.max lim.max max⟩ }
          (x11_info,
           { octotablet_info with axes := { octotablet_info.axes with tilt := tilt } })
        | .AbsWheel => acc
  | _ => acc

/-- One step of the pad class scan: record the button count from a button
class, and bind an absolute `Abs Wheel` valuator with a non-degenerate
range as the ring axis. -/
def scanPadClass (atomName : Nat → Option (List Char)) (tau : R)
    (acc : Nat × Option (AxisInfo R)) (cls : DeviceClassData) :
    Nat × Option (AxisInfo R) :=
  match cls with
  | .Button b => (b, acc.2)
  | .Valuator v =>
    if ¬v.mode_absolute then acc
    else
      match (atomName v.label).bind parseValuatorAxis with
      | none => acc
      | some label =>
        match label with
        | .AbsWheel =>
          if v.min = v.max then acc
          else
            (acc.1,
             some ⟨v.number,
               ringTransform tau (fixed32ToF32 v.min) (fixed32ToF32 v.max)⟩)
        | _ => acc
  | .other => acc

/-- Insert into the association list modelling a `BTreeMap`: replace an
existing binding, otherwise append. -/
def insertAssoc {α : Type} (l : List (ID × α)) (k : ID) (v : α) : List (ID × α) :=
  if l.any (fun p => p.1 = k) then
    l.map (fun p => if p.1 = k then (k, v) else p)
  else l ++ [(k, v)]

/-- Accumulator of the per-device classification loop: the registries being
rebuilt plus the two lists of device ids to bulk-enable events on. -/
structure RepopAcc (R : Type) where
  tools : List (Tool R)
  tool_infos : List (ID × ToolInfo R)
  pads : List Pad
  pad_infos : List (ID × PadInfo R)
  tablets : List Tablet
  tool_listen_events : List Nat
  pad_listen_events : List Nat

/-- The empty accumulator (the registries are cleared at the start of
`repopulate`). -/
def RepopAcc.empty (R : Type) : RepopAcc R := ⟨[], [], [], [], [], [], []⟩

/-- The body of `repopulate`'s device loop: join the list entry with its
query record, resolve the device-type atom (falling back to name parsing
for `xwayland-pointer`), and classify into tool / pad / tablet. A device
with raw id 0 is reserved (`ALL_DEVICES`) and cannot occur; the source
unwraps the nonzero conversion, the model skips. -/
def classifyDevice (snap : Snapshot) (generation : Nat) (degToRad tau : R)
    (atom_usb_id : Option Nat) (acc : RepopAcc R)
    (entry : List Char × ListDeviceInfo) : RepopAcc R :=
  let name := entry.1
  let device := entry.2
  if device.device_id = 0 then acc
  else
    let octotablet_id := ID.id generation device.device_id
    match snap.queries.find? (fun q => q.deviceid = device.device_id) with
    | none => acc
    | some query =>
      if device.device_type = 0 then acc
      else
        match (snap.atomName device.device_type).bind parseDeviceType with
        | none => acc
        | some device_type =>
          let raw_name := name
          let resolved : Option DeviceType :=
            match device_type with
            | .type t => some t
            | .Xwayland => xwaylandTypeFromName raw_name
          match resolved with
          | none => acc
          | some (DeviceType.Tool ty) =>
            -- Tools must be slave pointers.
            if query.type_ ≠ XiDeviceType.SlavePointer then acc
            else
              let name_fields := parseToolName raw_name
              let tablet_id : Option ID :=
                name_fields.maybe_associated_tablet.bind
                  (findTabletIdByName snap.queries generation)
              let octotablet_info : Tool R :=
                { internal_id := octotablet_id
                  name := some name_fields.human_readable
                  hardware_id := name_fields.id
                  wacom_id := none
                  tool_type := some ty
                  axes := ⟨none, none⟩ }
              let x11_info : ToolInfo R :=
                { pressure := none, tilt0 := none, tilt1 := none, wheel := none
                  tablet := tablet_id.getD ID.EmulatedTablet
                  phase := Phase.Out
                  master_pointer := query.attachment
                  master_keyboard := masterKeyboardOf snap.queries query.attachment
                  grabbed := false
                  frame_pending := none
                  last_interaction := none }
              let scanned :=
                query.classes.foldl (scanToolClass snap.atomName degToRad)
                  (x11_info, octotablet_info)
              { acc with
                tool_listen_events := acc.tool_listen_events ++ [device.device_id]
                tools := acc.tools ++ [scanned.2]
                tool_infos := insertAssoc acc.tool_infos octotablet_id scanned.1 }
          | some DeviceType.Pad =>
            -- A grabbable master/slave attachment is required.
            if query.type_ = XiDeviceType.FloatingSlave then acc
            else
              let scanned := query.classes.foldl (scanPadClass snap.atomName tau) (0, none)
              let buttons := scanned.1
              let ring_axis := scanned.2
              if buttons = 0 ∧ ring_axis = none then acc
              else
                let rings : List Ring :=
                  if ring_axis.isSome then [⟨none, octotablet_id⟩] else []
                let group : Group :=
                  { buttons := List.range buttons
                    feedback := none
                    internal_id := octotablet_id
                    mode_count := none
                    rings := rings
                    strips := [] }
                let pad : Pad :=
                  { internal_id := octotablet_id
                    total_buttons := buttons
                    groups := [group] }
                let tablet : Option ID :=
                  (padMaybeAssociatedTablet raw_name).bind
                    (findTabletIdByName snap.queries generation)
                let primary_master := query.attachment
                let other_master := masterKeyboardOf snap.queries primary_master
                let masters :=
                  if query.type_ = XiDeviceType.MasterKeyboard ∨
                      query.type_ = XiDeviceType.SlaveKeyboard then
                    (primary_master, other_master)
                  else (other_master, primary_master)
                let pad_info : PadInfo R :=
                  { ring := ring_axis.map (fun a => ⟨a, none⟩)
                    master_pointer := masters.1
                    master_keyboard := masters.2
                    tablet := tablet.getD ID.EmulatedTablet
                    grabbed := false }
                { acc with
                  pads := acc.pads ++ [pad]
                  pad_listen_events := acc.pad_listen_events ++ [device.device_id]
                  pad_infos := insertAssoc acc.pad_infos octotablet_id pad_info }
          | some DeviceType.Tablet =>
            let usb_id :=
              (snap.usbProp device.device_id (atom_usb_id.getD 0)).bind decodeUsbId
            { acc with
              tablets := acc.tablets ++
                [{ internal_id := octotablet_id
                   name := some raw_name
                   usb_id := usb_id }] }

/-- Does any tablet in the registry carry the given raw device id? (The
re-resolution loops compare device ids only; the generation is uniform
within a pass.) -/
def tabletsContainDeviceId (tablets : List Tablet) (desired : Nat) : Bool :=
  tablets.any (fun tablet =>
    match tablet.internal_id with
    | ID.id _ device_id => device_id = desired
    | ID.EmulatedTablet => false)

/-- Tool half of the tablet re-resolution: a tablet reference that did not
survive the pass is rewritten to the sentinel; report whether this tool
needs the synthetic tablet. -/
def resolveToolTablet (tablets : List Tablet) (tool : ToolInfo R) :
    ToolInfo R × Bool :=
  let tool :=
    match tool.tablet with
    | ID.id _ desired =>
      if tabletsContainDeviceId tablets desired then tool
      else { tool with tablet := ID.EmulatedTablet }
    | ID.EmulatedTablet => tool
  (tool, decide (tool.tablet = ID.EmulatedTablet))

/-- Pad half of the tablet re-resolution. The source's loop checks for a
dangling reference and raises the dummy-tablet flag, but — unlike the tool
loop — never writes `pad.tablet` back; it also eagerly announces the pad's
tablet attachment with an `Enter` event. -/
def resolvePadTablet (tablets : List Tablet) (pad : PadInfo R) :
    PadInfo R × Bool :=
  let wants_from_dangling :=
    match pad.tablet with
    | ID.id _ desired => !tabletsContainDeviceId tablets desired
    | ID.EmulatedTablet => false
  (pad, wants_from_dangling || decide (pad.tablet = ID.EmulatedTablet))

/-- Run the tool re-resolution over the whole registry, accumulating the
dummy-tablet flag. -/
def resolveToolTablets (infos : List (ID × ToolInfo R)) (tablets : List Tablet) :
    List (ID × ToolInfo R) × Bool :=
  infos.foldl
    (fun acc p =>
      let r := resolveToolTablet tablets p.2
      (acc.1 ++ [(p.1, r.1)], acc.2 || r.2))
    ([], false)

/-- Run the pad re-resolution, accumulating the dummy-tablet flag and the
eagerly-announced `Enter` events. -/
def resolvePadTablets (infos : List (ID × PadInfo R)) (tablets : List Tablet) :
    List (ID × PadInfo R) × Bool × List (RawEvent R) :=
  infos.foldl
    (fun acc p =>
      let r := resolvePadTablet tablets p.2
      (acc.1 ++ [(p.1, r.1)], acc.2.1 || r.2,
       acc.2.2 ++ [RawEvent.Pad p.1 (PadEvent.Enter p.2.tablet)]))
    ([], false, [])

/-- The synthetic tablet record appended when any tool or pad needs it. -/
def emulatedTabletRecord : Tablet :=
  { internal_id := ID.EmulatedTablet
    name := some EMULATED_TABLET_NAME
    usb_id := none }

/-! ## Event-interest registration -/

/-- The `XIEventMask` bits the backend requests. -/
inductive XIMaskBit where
  | ButtonPress : XIMaskBit
  | ButtonRelease : XIMaskBit
  | Enter : XIMaskBit
  | Leave : XIMaskBit
  | FocusIn : XIMaskBit
  | FocusOut : XIMaskBit
  | Motion : XIMaskBit
  | DeviceChanged : XIMaskBit
deriving DecidableEq

/-- `xinput::EventMask`. -/
structure EventMask where
  deviceid : Nat
  mask : List XIMaskBit
deriving DecidableEq

/-- The per-tool interest mask. -/
def toolMask (deviceid : Nat) : EventMask :=
  ⟨deviceid, [.ButtonPress, .ButtonRelease, .Enter, .Leave, .FocusIn, .FocusOut,
              .Motion, .DeviceChanged]⟩

/-- The per-pad interest mask. -/
def padMask (deviceid : Nat) : EventMask :=
  ⟨deviceid, [.ButtonPress, .ButtonRelease, .Motion, .DeviceChanged]⟩

/-- The combined enter/leave/focus mask for all master devices. -/
def allMasterMask : EventMask :=
  ⟨XI_ALL_MASTER_DEVICES, [.Enter, .Leave, .FocusIn, .FocusOut]⟩

/-- The interest list sent by the bulk `xi_select_events` request. -/
def buildInterest (tool_listen_events pad_listen_events : List Nat) :
    List EventMask :=
  tool_listen_events.map toolMask ++ pad_listen_events.map padMask ++ [allMasterMask]

/-! ## The backend state (`struct Manager`) -/

/-- `struct Manager`, minus the connection and window handles (the
connection is the `Snapshot` argument of the operations that use it). -/
structure Manager (R : Type) where
  tool_infos : List (ID × ToolInfo R)
  tools : List (Tool R)
  pad_infos : List (ID × PadInfo R)
  pads : List Pad
  tablets : List Tablet
  events : List (RawEvent R)
  atom_usb_id : Option Nat
  server_time : Nat
  device_generation : Nat

/-- The freshly-built manager state, before the initial `repopulate`. -/
def Manager.fresh (R : Type) : Manager R :=
  { tool_infos := [], tools := [], pad_infos := [], pads := [], tablets := []
    events := [], atom_usb_id := none, server_time := 0, device_generation := 0 }

/-- `Manager::repopulate`: clear and rebuild every registry from the two
joined device queries, re-resolve tablet references, append the synthetic
tablet when needed, and build the bulk interest request — skipped (and
returned as `none`) when `tool_listen_events` is empty. -/
def Manager.repopulate (st : Manager R) (snap : Snapshot) (degToRad tau : R) :
    Manager R × Option (List EventMask) :=
  let acc := snap.devices.foldl
    (classifyDevice snap st.device_generation degToRad tau st.atom_usb_id)
    (RepopAcc.empty R)
  let resolved_tools := resolveToolTablets acc.tool_infos acc.tablets
  let resolved_pads := resolvePadTablets acc.pad_infos acc.tablets
  let wants_dummy_tablet := resolved_tools.2 || resolved_pads.2.1
  let tablets :=
    if wants_dummy_tablet then acc.tablets ++ [emulatedTabletRecord]
    else acc.tablets
  let st :=
    { st with
      tools := acc.tools
      tool_infos := resolved_tools.1
      pads := acc.pads
      pad_infos := resolved_pads.1
      tablets := tablets
      events := st.events ++ resolved_pads.2.2 }
  -- Skip if nothing to enable (the source checks only the tool list).
  if acc.tool_listen_events.isEmpty then (st, none)
  else (st, some (buildInterest acc.tool_listen_events acc.pad_listen_events))

/-! ## The event pump (`Manager::pump`) -/

/-- The payload of an `XinputMotion` event that the handler reads. -/
structure XMotion where
  deviceid : Nat
  time : Nat
  valuator_mask : List Nat
  axisvalues : List Fp3232
  event_x : Int
  event_y : Int
deriving DecidableEq

/-- The protocol events the pump dispatches on. The source handles
`XinputLeave`/`XinputFocusOut` (and `XinputEnter`/`XinputFocusIn`) in a
single merged arm, modelled by one constructor each. -/
inductive XEvent where
  | Hierarchy (time : Nat) : XEvent
  | DeviceChanged (reason_is_device_change : Bool) : XEvent
  | LeaveOrFocusOut (deviceid : Nat) (time : Nat) : XEvent
  | EnterOrFocusIn (deviceid : Nat) (time : Nat) : XEvent
  | ButtonEvent (pressed : Bool) (deviceid : Nat) (time : Nat) (detail : Nat)
      (pointer_emulated : Bool) : XEvent
  | Motion (m : XMotion) : XEvent
  | other : XEvent

/-- `valuator_fetch`: look the valuator up in the sparse value array,
guarded by the event's bitmask, replicating the single-valuator quirk
(a one-element value array is read at position 0 regardless of the masked
slot). -/
def valuatorFetch (m : XMotion) (idx : Nat) : Option Fp3232 :=
  match m.valuator_mask[idx / 32]? with
  | none => none
  | some word =>
    if word &&& (1 <<< (idx % 32)) = 0 then none
    else if m.axisvalues.length = 1 then m.axisvalues.head?
    else m.axisvalues[idx]?

/-- `tool_info_mut_from_device_id`: reject the reserved zero id, pair the
raw id with the current generation and look it up. -/
def toolInfoFromDeviceId (id : Nat) (infos : List (ID × ToolInfo R))
    (now_generation : Nat) : Option (ID × ToolInfo R) :=
  if id = 0 then none
  else
    let key := ID.id now_generation id
    (infos.find? (fun p => p.1 = key)).map (fun p => (key, p.2))

/-- `pad_info_mut_from_device_id`. -/
def padInfoFromDeviceId (id : Nat) (infos : List (ID × PadInfo R))
    (now_generation : Nat) : Option (ID × PadInfo R) :=
  if id = 0 then none
  else
    let key := ID.id now_generation id
    (infos.find? (fun p => p.1 = key)).map (fun p => (key, p.2))

/-- `pad_mut_from_device_id`: the button handler resolves pads through the
public registry. -/
def padFromDeviceId (id : Nat) (pads : List Pad) (now_generation : Nat) :
    Option (ID × Pad) :=
  if id = 0 then none
  else
    let key := ID.id now_generation id
    (pads.find? (fun pad => pad.internal_id = key)).map (fun pad => (key, pad))

/-- Raw numeric id of a real device id. The source marks the
`EmulatedTablet` case `unreachable!` (only real ids are ever stored as map
keys); the model returns the reserved id 0 there. -/
def ID.rawDeviceId : ID → Nat
  | ID.id _ device_id => device_id
  | ID.EmulatedTablet => 0

/-- Update the binding of `k` in the association list (models mutation
through `get_mut`). -/
def updateAssoc {α : Type} (l : List (ID × α)) (k : ID) (v : α) : List (ID × α) :=
  l.map (fun p => if p.1 = k then (k, v) else p)

/-- The tool-local part of the motion handler (`try_tool` after the map
lookup): flush the pending frame when the timestamp changed, ensure the
tool is `In`, resolve the valuators and emit the pose. -/
def toolMotionStep (tool : ToolInfo R) (id : ID) (m : XMotion) :
    ToolInfo R × List (RawEvent R) :=
  -- About to emit events. Emit frame if the time differs.
  let frame_part : ToolInfo R × List (RawEvent R) :=
    match tool.frame_pending with
    | some last_time =>
      ({ tool with frame_pending := some m.time },
       if last_time ≠ m.time then [RawEvent.Tool id (ToolEvent.Frame (some last_time))]
       else [])
    | none => ({ tool with frame_pending := some m.time }, [])
  let tool := frame_part.1
  let in_part := tool.ensureIn id
  let tool := in_part.1
  -- Access valuators, and map them to our range for the associated axis.
  -- (`NicheF32::new_some` rejects only NaN, which has no counterpart in the
  -- idealised field, so the pressure chain is the plain `Option` map.)
  let pressure : Option R :=
    tool.pressure.bind (fun axis =>
      (valuatorFetch m axis.index).map axis.transform.transformFixed)
  let tilt_x : Option R :=
    tool.tilt0.bind (fun axis =>
      (valuatorFetch m axis.index).map axis.transform.transformFixed)
  let tilt_y : Option R :=
    tool.tilt1.bind (fun axis =>
      (valuatorFetch m axis.index).map axis.transform.transformFixed)
  let pose : Pose R :=
    { position := (fixed16ToF32 m.event_x, fixed16ToF32 m.event_y)
      distance := none
      pressure := pressure
      button_pressure := none
      tilt :=
        match tilt_x, tilt_y with
        | some x, some y => some (x, y)
        | some x, none => some (x, 0)
        | none, some y => some (0, y)
        | none, none => none
      roll := none
      wheel := none
      slider := none
      contact_size := none }
  (tool, frame_part.2 ++ in_part.2 ++ [RawEvent.Tool id (ToolEvent.Pose pose)])

/-- `try_tool`: `none` when the device is not a known tool (no state was
touched); otherwise the updated manager. -/
def tryToolMotion (st : Manager R) (m : XMotion) : Option (Manager R) :=
  (toolInfoFromDeviceId m.deviceid st.tool_infos st.device_generation).map
    (fun found =>
      let step := toolMotionStep found.2 found.1 m
      { st with
        tool_infos := updateAssoc st.tool_infos found.1 step.1
        events := st.events ++ step.2 })

/-- The ring part of `try_pad`, after the pad and its ring are resolved:
fetch the raw value; run the ring timeout; drop the wire-level zero-zero
sentinel (release snap-back) without a pose; otherwise emit the pose and a
ring frame stamped with current server time and restart the interaction
clock. -/
def ringMotion (ring : RingInfo R) (id : ID) (server_time : Nat) (m : XMotion) :
    RingInfo R × List (RawEvent R) :=
  match valuatorFetch m ring.axis.index with
  | none => (ring, [])
  | some raw_valuator_value =>
    let transformed_valuator_value :=
      ring.axis.transform.transformFixed raw_valuator_value
    let timeout := ring.takeTimeout server_time
    let ring := timeout.1
    let timeout_events : List (RawEvent R) :=
      if timeout.2 then
        [RawEvent.Pad id (PadEvent.Group id (PadGroupEvent.Ring id TouchStripEvent.Up))]
      else []
    if raw_valuator_value = (⟨0, 0⟩ : Fp3232) then
      -- On release, this is snapped back to zero; drop it.
      (ring, timeout_events)
    else
      ({ ring with last_interaction := some server_time },
       timeout_events ++
       [RawEvent.Pad id (PadEvent.Group id
          (PadGroupEvent.Ring id (TouchStripEvent.Pose transformed_valuator_value))),
        RawEvent.Pad id (PadEvent.Group id
          (PadGroupEvent.Ring id (TouchStripEvent.Frame (some server_time))))])

/-- `try_pad`: resolve the device as a pad with a ring and run the ring
handler; every early exit leaves the manager unchanged. -/
def tryPadMotion (st : Manager R) (m : XMotion) : Manager R :=
  match padInfoFromDeviceId m.deviceid st.pad_infos st.device_generation with
  | none => st
  | some (id, pad) =>
    match pad.ring with
    | none => st
    | some ring =>
      let step := ringMotion ring id st.server_time m
      { st with
        pad_infos := updateAssoc st.pad_infos id { pad with ring := some step.1 }
        events := st.events ++ step.2 }

/-- The motion arm of the pump: update server time, try the device as a
tool first, then as a pad ring. -/
def handleMotion (st : Manager R) (m : XMotion) : Manager R :=
  let st := { st with server_time := m.time }
  match tryToolMotion st m with
  | some st => st
  | none => tryPadMotion st m

/-- The button arm of the pump: skip pointer-emulated presses; for a tool,
ensure `In` and let button index 1 drive the phase machine while other
nonzero indices emit a tool button event; for a pad, validate the 1-based
index against the button count and emit it rebased to 0. -/
def handleButton (st : Manager R) (pressed : Bool) (deviceid time detail : Nat)
    (pointer_emulated : Bool) : Manager R :=
  let st := { st with server_time := time }
  if pointer_emulated then st
  else
    match toolInfoFromDeviceId deviceid st.tool_infos st.device_generation with
    | some (id, tool) =>
      -- `u16::try_from(e.detail)` — out-of-range details skip the event.
      if detail < 2 ^ 16 then
        let in_part := tool.ensureIn id
        let tool := in_part.1
        let rest : ToolInfo R × List (RawEvent R) :=
          if detail = 0 then (tool, [])
          else if detail = 1 then
            tool.setPhase id (if pressed then Phase.Down else Phase.In)
          else (tool, [RawEvent.Tool id (ToolEvent.Button detail pressed)])
        { st with
          tool_infos := updateAssoc st.tool_infos id rest.1
          events := st.events ++ in_part.2 ++ rest.2 }
      else st
    | none =>
      match padFromDeviceId deviceid st.pads st.device_generation with
      | some (id, pad) =>
        if detail = 0 ∨ pad.total_buttons < detail then st
        else
          { st with
            events := st.events ++ [RawEvent.Pad id (PadEvent.Button (detail - 1) pressed)] }
      | none => st

/-- `Manager::parent_entered`: best-effort exclusive grab of every
not-yet-grabbed tool and pad whose master pointer or keyboard is the
entering master; only a successful grab flips the flag. -/
def parentEntered (st : Manager R) (snap : Snapshot) (master time : Nat) :
    Manager R :=
  let tool_infos := st.tool_infos.map (fun p =>
    let tool := p.2
    let is_child := tool.master_pointer = master ∨ tool.master_keyboard = master
    if tool.grabbed ∨ ¬is_child then p
    else if snap.grabOk p.1.rawDeviceId time then (p.1, { tool with grabbed := true })
    else p)
  let pad_infos := st.pad_infos.map (fun p =>
    let pad := p.2
    let is_child := pad.master_pointer = master ∨ pad.master_keyboard = master
    if pad.grabbed ∨ ¬is_child then p
    else if snap.grabOk p.1.rawDeviceId time then (p.1, { pad with grabbed := true })
    else p)
  { st with tool_infos := tool_infos, pad_infos := pad_infos }

/-- The per-tool body of `Manager::parent_left`: for a grabbed child tool,
flush the pending frame when it predates the release (storing the release
time as the new pending frame), force the phase to `Out`, and best-effort
ungrab. -/
def parentLeftTool (snap : Snapshot) (master time : Nat) (id : ID)
    (tool : ToolInfo R) : ToolInfo R × List (RawEvent R) :=
  let is_child := tool.master_pointer = master ∨ tool.master_keyboard = master
  if ¬tool.grabbed ∨ ¬is_child then (tool, [])
  else
    let was_in := tool.phase = Phase.In ∨ tool.phase = Phase.Down
    let frame_part : ToolInfo R × List (RawEvent R) :=
      if was_in then
        match tool.frame_pending with
        | some last_time =>
          ({ tool with frame_pending := some time },
           if last_time ≠ time then [RawEvent.Tool id (ToolEvent.Frame (some last_time))]
           else [])
        | none => ({ tool with frame_pending := some time }, [])
      else (tool, [])
    let tool := frame_part.1
    let phase_part := tool.setPhase id Phase.Out
    let tool := phase_part.1
    let tool :=
      if snap.ungrabOk id.rawDeviceId time then { tool with grabbed := false }
      else tool
    (tool, frame_part.2 ++ phase_part.2)

/-- `Manager::parent_left`: release every grabbed child tool (emitting the
release events) and then every grabbed child pad. -/
def parentLeft (st : Manager R) (snap : Snapshot) (master time : Nat) :
    Manager R :=
  let tools := st.tool_infos.foldl
    (fun acc p =>
      let r := parentLeftTool snap master time p.1 p.2
      (acc.1 ++ [(p.1, r.1)], acc.2 ++ r.2))
    (([] : List (ID × ToolInfo R)), ([] : List (RawEvent R)))
  let pad_infos := st.pad_infos.map (fun p =>
    let pad := p.2
    let is_child := pad.master_pointer = master ∨ pad.master_keyboard = master
    if ¬pad.grabbed ∨ ¬is_child then p
    else if snap.ungrabOk p.1.rawDeviceId time then (p.1, { pad with grabbed := false })
    else p)
  { st with
    tool_infos := tools.1
    pad_infos := pad_infos
    events := st.events ++ tools.2 }

/-- `Manager::pre_frame_cleanup`: clear the previous tick's event batch. -/
def preFrameCleanup (st : Manager R) : Manager R :=
  { st with events := [] }

/-- The per-tool body of `post_frame_cleanup`: emit the still-pending frame
and, when the tool timeout fires, force the phase to `Out`. -/
def postToolCleanup (tool : ToolInfo R) (id : ID) (now : Nat) :
    ToolInfo R × List (RawEvent R) :=
  let frame_part : ToolInfo R × List (RawEvent R) :=
    match tool.frame_pending with
    | some time =>
      ({ tool with frame_pending := none },
       [RawEvent.Tool id (ToolEvent.Frame (some time))])
    | none => (tool, [])
  let tool := frame_part.1
  let timeout := tool.takeTimeout now
  let tool := timeout.1
  if timeout.2 then
    let phase_part := tool.setPhase id Phase.Out
    (phase_part.1, frame_part.2 ++ phase_part.2)
  else (tool, frame_part.2)

/-- `Manager::post_frame_cleanup`: emulated ring `Up`s from ring timeouts,
then pending tool frames and timeout-driven `Out`s. -/
def postFrameCleanup (st : Manager R) : Manager R :=
  let pads := st.pad_infos.foldl
    (fun acc p =>
      match p.2.ring with
      | some ring =>
        let timeout := ring.takeTimeout st.server_time
        let events : List (RawEvent R) :=
          if timeout.2 then
            [RawEvent.Pad p.1 (PadEvent.Group p.1
               (PadGroupEvent.Ring p.1 TouchStripEvent.Up))]
          else []
        (acc.1 ++ [(p.1, { p.2 with ring := some timeout.1 })], acc.2 ++ events)
      | none => (acc.1 ++ [p], acc.2))
    (([] : List (ID × PadInfo R)), ([] : List (RawEvent R)))
  let tools := st.tool_infos.foldl
    (fun acc p =>
      let r := postToolCleanup p.2 p.1 st.server_time
      (acc.1 ++ [(p.1, r.1)], acc.2 ++ r.2))
    (([] : List (ID × ToolInfo R)), ([] : List (RawEvent R)))
  { st with
    pad_infos := pads.1
    tool_infos := tools.1
    events := st.events ++ pads.2 ++ tools.2 }

/-- One dispatch step of the pump loop. The second component is the
`has_repopulated` flag coalescing hierarchy notifications within a tick. -/
def handleXEvent (snap : Snapshot) (degToRad tau : R)
    (acc : Manager R × Bool) : XEvent → Manager R × Bool
  | .Hierarchy time =>
    let st := { acc.1 with server_time := time }
    if acc.2 then (st, acc.2)
    else ((st.repopulate snap degToRad tau).1, true)
  | .DeviceChanged _ =>
    -- Observed, but no further action is taken either way.
    acc
  | .LeaveOrFocusOut deviceid time =>
    (parentLeft { acc.1 with server_time := time } snap deviceid time, acc.2)
  | .EnterOrFocusIn deviceid time =>
    (parentEntered { acc.1 with server_time := time } snap deviceid time, acc.2)
  | .ButtonEvent pressed deviceid time detail pointer_emulated =>
    (handleButton acc.1 pressed deviceid time detail pointer_emulated, acc.2)
  | .Motion m => (handleMotion acc.1 m, acc.2)
  | .other => acc

/-- `Manager::pump`: clear the batch, drain the queued events, run the
post-tick synthesis. -/
def Manager.pump (st : Manager R) (snap : Snapshot) (degToRad tau : R)
    (queued : List XEvent) : Manager R :=
  let st := preFrameCleanup st
  let drained := queued.foldl (handleXEvent snap degToRad tau) (st, false)
  postFrameCleanup drained.1

/-! ## Specification-side definitions

These transcribe the specification's wording (the §4.4 transition table,
the frame-coalescing description) and are compared against the embedded
operations. -/

/-- The §4.4 transition table as written in the specification: the ordered
atomic events emitted for each (current, requested) phase pair; `In`
carries the tool's associated tablet, same-to-same requests emit nothing. -/
def phaseTransitionSpec (current requested : Phase) (tablet self_id : ID) :
    List (RawEvent R) :=
  match current, requested with
  | .Out, .In => [RawEvent.Tool self_id (ToolEvent.In tablet)]
  | .Out, .Down =>
    [RawEvent.Tool self_id (ToolEvent.In tablet), RawEvent.Tool self_id ToolEvent.Down]
  | .In, .Down => [RawEvent.Tool self_id ToolEvent.Down]
  | .In, .Out => [RawEvent.Tool self_id ToolEvent.Out]
  | .Down, .In => [RawEvent.Tool self_id ToolEvent.Up]
  | .Down, .Out =>
    [RawEvent.Tool self_id ToolEvent.Up, RawEvent.Tool self_id ToolEvent.Out]
  | .Out, .Out => []
  | .In, .In => []
  | .Down, .Down => []

/-- The timestamps of the tool `Frame` events in an event batch. -/
def framesOf (events : List (RawEvent R)) : List Nat :=
  events.filterMap (fun e =>
    match e with
    | RawEvent.Tool _ (ToolEvent.Frame (some t)) => some t
    | _ => none)

/-- Collapse runs of equal consecutive timestamps to a single entry: the
specification's "one `Frame` per same-timestamp burst, carrying the
burst's timestamp". -/
def collapseConsecutive : List Nat → List Nat
  | [] => []
  | [t] => [t]
  | t :: u :: rest =>
    if t = u then collapseConsecutive (u :: rest)
    else t :: collapseConsecutive (u :: rest)

/-- Is the event a tool `Frame`? -/
def isToolFrame : RawEvent R → Bool
  | RawEvent.Tool _ (ToolEvent.Frame _) => true
  | _ => false

/-- Is the event a ring `Pose`? -/
def isRingPose : RawEvent R → Bool
  | RawEvent.Pad _ (PadEvent.Group _ (PadGroupEvent.Ring _ (TouchStripEvent.Pose _))) => true
  | _ => false

/-- Is the event a ring `Frame`? -/
def isRingFrame : RawEvent R → Bool
  | RawEvent.Pad _ (PadEvent.Group _ (PadGroupEvent.Ring _ (TouchStripEvent.Frame _))) => true
  | _ => false

/-- The tool-local part of the button handler (`handleButton`'s tool arm
after the map lookup and the `u16` range check): ensure the tool is `In`,
let button index 1 drive the phase machine, and emit a tool button event
for any other nonzero index. `handleButton_tool_step` below proves this is
exactly what `handleButton` does to the resolved tool. -/
def toolButtonStep (tool : ToolInfo R) (id : ID) (detail : Nat) (pressed : Bool) :
    ToolInfo R × List (RawEvent R) :=
  let in_part := tool.ensureIn id
  let tool := in_part.1
  let rest : ToolInfo R × List (RawEvent R) :=
    if detail = 0 then (tool, [])
    else if detail = 1 then
      tool.setPhase id (if pressed then Phase.Down else Phase.In)
    else (tool, [RawEvent.Tool id (ToolEvent.Button detail pressed)])
  (rest.1, in_part.2 ++ rest.2)

/-- A pose or button mutation for one tool, as the claim quantifies over
both kinds; the button's event timestamp is carried but — as in the source
— plays no role in the frame machinery. -/
inductive ToolMutation where
  | motion (m : XMotion) : ToolMutation
  | button (time : Nat) (detail : Nat) (pressed : Bool) : ToolMutation

/-- Apply one mutation to a tool. -/
def toolMutationStep (tool : ToolInfo R) (id : ID) :
    ToolMutation → ToolInfo R × List (RawEvent R)
  | .motion m => toolMotionStep tool id m
  | .button _ detail pressed => toolButtonStep tool id detail pressed

/-- Run a sequence of pose/button mutations for one tool, collecting the
emitted events in order. -/
def runToolMutations (tool : ToolInfo R) (id : ID) : List ToolMutation →
    ToolInfo R × List (RawEvent R)
  | [] => (tool, [])
  | u :: us =>
    let step := toolMutationStep tool id u
    let rest := runToolMutations step.1 id us
    (rest.1, step.2 ++ rest.2)

/-- The timestamps of the motion (pose) mutations of a batch, in order. -/
def motionTimes : List ToolMutation → List Nat
  | [] => []
  | .motion m :: us => m.time :: motionTimes us
  | .button _ _ _ :: us => motionTimes us

/-- All tool events of one tick for a single tool: the pose/button batch
followed by the tick-end cleanup (frame flush + timeout synthesis). -/
def toolTickEvents (tool : ToolInfo R) (id : ID) (us : List ToolMutation)
    (now : Nat) : List (RawEvent R) :=
  let run := runToolMutations tool id us
  run.2 ++ (postToolCleanup run.1 id now).2

/-! ## Claim C1 — the phase-transition table -/

/-- Claim C1: for every current phase and every requested phase,
`set_phase` emits exactly the ordered atomic event sequence of the §4.4
table and stores the requested phase; in particular `Out → Down` ends in
`Down` having emitted `[In, Down]`. -/
theorem setPhase_matches_table {R : Type} [LinearOrderedField R]
    (tool : ToolInfo R) (self_id : ID) (phase : Phase) :
    tool.setPhase self_id phase =
      ({ tool with phase := phase },
       phaseTransitionSpec tool.phase phase tool.tablet self_id) := by
  cases h : tool.phase <;> cases phase <;>
    simp [ToolInfo.setPhase, phaseTransitionSpec, h]

/-! ## Claim C7 — tool-name parsing -/

/-- Counterexample to claim C7 as stated: for
`"Intuos Pro S Pen (0x123abc)"` the parser's human-readable name is
`"Intuos Pro S Pen"` — the tool-type suffix is *not* stripped from it (it
is only stripped to form the candidate tablet name), so the claimed
human-readable `"Intuos Pro S"` is wrong. -/
theorem parse_tool_name_counterexample :
    (parseToolName ("Intuos Pro S Pen (0x123abc)".toList)).human_readable ≠
      "Intuos Pro S".toList ∧
    (parseToolName ("Intuos Pro S Pen (0x123abc)".toList)).human_readable =
      "Intuos Pro S Pen".toList := by
  constructor <;> decide

/-- Claim C7 (amended): `"Intuos Pro S Pen (0x123abc)"` parses to
human-readable `"Intuos Pro S Pen"` (the suffix is stripped only for the
candidate owning-tablet name `"Intuos Pro S"`), hardware id `0x123abc`;
and `"Some Device (0)"` parses to a present hardware id with value 0. -/
theorem parse_tool_name_amended :
    parseToolName ("Intuos Pro S Pen (0x123abc)".toList) =
      { human_readable := "Intuos Pro S Pen".toList
        maybe_associated_tablet := some ("Intuos Pro S".toList)
        id := some 0x123abc } ∧
    (parseToolName ("Some Device (0)".toList)).id = some 0 := by
  constructor <;> decide

/-! ## Claim C10 — the fixed-point conversion's sign handling -/

/-- Claim C10: `fixed32_to_f32` treats a zero integral component as
non-positive: with integral 0 and fractional f > 0 it returns
`-(f / 2^32)`, not `+(f / 2^32)`; the fractional part is added exactly
when the integral part is strictly positive and subtracted otherwise. -/
theorem fixed32_zero_integral_subtracts (f : Nat) (hf : 0 < f) :
    fixed32ToF32 (R := ℝ) ⟨0, f⟩ = -((f : ℝ) / 2 ^ 32) ∧
    fixed32ToF32 (R := ℝ) ⟨0, f⟩ ≠ (f : ℝ) / 2 ^ 32 ∧
    (∀ (i : Int) (fr : Nat), 0 < i →
      fixed32ToF32 (R := ℝ) ⟨i, fr⟩ = (i : ℝ) + (fr : ℝ) / 2 ^ 32) ∧
    (∀ (i : Int) (fr : Nat), i ≤ 0 →
      fixed32ToF32 (R := ℝ) ⟨i, fr⟩ = (i : ℝ) - (fr : ℝ) / 2 ^ 32) := by
  have hfr : (0 : ℝ) < (f : ℝ) / 2 ^ 32 := by positivity
  refine ⟨?_, ?_, ?_, ?_⟩
  · simp [fixed32ToF32]
  · simp only [fixed32ToF32]
    norm_num
    intro h
    linarith
  · intro i fr hi
    simp [fixed32ToF32, hi]
  · intro i fr hi
    simp [fixed32ToF32, not_lt.2 hi]

/-- Witness for C10 at `f = 1`. -/
theorem fixed32_zero_integral_subtracts_witness :
    0 < 1 ∧ fixed32ToF32 (R := ℝ) ⟨0, 1⟩ = -(((1 : Nat) : ℝ) / 2 ^ 32) :=
  ⟨Nat.one_pos, (fixed32_zero_integral_subtracts 1 Nat.one_pos).1⟩

/-! ## Claim C8 — the ring's zero-zero sentinel is dropped -/

/-- Claim C8: a pad-ring motion whose raw valuator value is the wire-level
zero-zero fixed-point sentinel emits no ring `Pose` (and no ring `Frame`)
regardless of the ring's prior state: the value is dropped as a release
snap-back. (The only event this step may emit is the timeout `Up`.) -/
theorem ring_zero_sentinel_no_pose {R : Type} [LinearOrderedField R]
    (ring : RingInfo R) (id : ID) (server_time : Nat) (m : XMotion)
    (h : valuatorFetch m ring.axis.index = some ⟨0, 0⟩) :
    ((ringMotion ring id server_time m).2.all
      (fun e => !isRingPose e && !isRingFrame e)) = true := by
  unfold ringMotion
  rw [h]
  cases htm : (ring.takeTimeout server_time).2 <;>
    simp [htm, isRingPose, isRingFrame]

/-- Witness for C8: a concrete ring whose valuator reports the zero-zero
sentinel. -/
theorem ring_zero_sentinel_no_pose_witness :
    valuatorFetch ⟨7, 100, [1], [⟨0, 0⟩], 0, 0⟩ 0 = some ⟨0, 0⟩ ∧
    ((ringMotion (R := ℚ) ⟨⟨0, Transform.BiasScale 0 1⟩, none⟩ (ID.id 0 7) 100
        ⟨7, 100, [1], [⟨0, 0⟩], 0, 0⟩).2.all
      (fun e => !isRingPose e && !isRingFrame e)) = true :=
  ⟨rfl, ring_zero_sentinel_no_pose _ _ _ _ rfl⟩

/-! ## Claim C2 — the tool-side timeout machinery is never armed

The threshold logic of `ToolInfo::take_timeout` is faithful to the claim,
but no code path ever assigns `last_interaction` on a tool (only the ring
handler sets its own stamp), so the tool half of the claim fails: a tool
never produces the synthetic `Out`. -/

/-- A single tool-scan step never touches `last_interaction`. -/
theorem scanToolClass_last_interaction {R : Type} [LinearOrderedField R]
    (an : Nat → Option (List Char)) (dr : R) (acc : ToolInfo R × Tool R)
    (cls : DeviceClassData) :
    ((scanToolClass an dr acc cls).1).last_interaction = acc.1.last_interaction := by
  unfold scanToolClass
  cases cls with
  | Button b => rfl
  | other => rfl
  | Valuator v =>
    dsimp only
    split
    · rfl
    split
    · rfl
    cases (an v.label).bind parseValuatorAxis with
    | none => rfl
    | some label => cases label <;> rfl

/-- The whole tool valuator scan never touches `last_interaction`. -/
theorem scanToolClasses_last_interaction {R : Type} [LinearOrderedField R]
    (an : Nat → Option (List Char)) (dr : R) (classes : List DeviceClassData)
    (acc : ToolInfo R × Tool R) :
    ((classes.foldl (scanToolClass an dr) acc).1).last_interaction =
      acc.1.last_interaction := by
  induction classes generalizing acc with
  | nil => rfl
  | cons c cs ih => rw [List.foldl_cons, ih, scanToolClass_last_interaction]

/-- Claim C2 (code bug): a tool's `last_interaction` is initialised `none`
at classification and is preserved by every tool mutation the pump
performs — processing a genuine motion, `ensure_in`, `set_phase`, and the
valuator scan — while `take_timeout` on a cleared stamp never fires, so
the tick-end cleanup of such a tool emits only the pending `Frame` and
never a synthetic `Out`. This contradicts the claimed (and documented)
tool-timeout behaviour; only the ring half of the mechanism is armed. -/
theorem tool_timeout_never_fires :
    (∀ (R : Type) [LinearOrderedField R] (tool : ToolInfo R) (id : ID) (m : XMotion),
       ((toolMotionStep tool id m).1).last_interaction = tool.last_interaction) ∧
    (∀ (R : Type) [LinearOrderedField R] (tool : ToolInfo R) (id : ID),
       ((tool.ensureIn id).1).last_interaction = tool.last_interaction) ∧
    (∀ (R : Type) [LinearOrderedField R] (tool : ToolInfo R) (id : ID) (phase : Phase),
       ((tool.setPhase id phase).1).last_interaction = tool.last_interaction) ∧
    (∀ (R : Type) [LinearOrderedField R] (an : Nat → Option (List Char)) (dr : R)
       (classes : List DeviceClassData) (acc : ToolInfo R × Tool R),
       ((classes.foldl (scanToolClass an dr) acc).1).last_interaction =
         acc.1.last_interaction) ∧
    (∀ (R : Type) [LinearOrderedField R] (tool : ToolInfo R) (now : Nat),
       ({ tool with last_interaction := none } : ToolInfo R).takeTimeout now =
         ({ tool with last_interaction := none }, false)) ∧
    (∀ (R : Type) [LinearOrderedField R] (tool : ToolInfo R) (id : ID) (now : Nat),
       ((postToolCleanup ({ tool with last_interaction := none } : ToolInfo R) id now).2.all
         isToolFrame) = true) := by
  refine ⟨?_, ?_, ?_, ?_, ?_, ?_⟩
  · intro R _ tool id m
    unfold toolMotionStep ToolInfo.ensureIn
    cases tool.frame_pending <;>
      by_cases h : tool.phase = Phase.Out <;> simp [h]
  · intro R _ tool id
    unfold ToolInfo.ensureIn
    by_cases h : tool.phase = Phase.Out <;> simp [h]
  · intro R _ tool id phase
    unfold ToolInfo.setPhase
    rfl
  · intro R _ an dr classes acc
    exact scanToolClasses_last_interaction an dr classes acc
  · intro R _ tool now
    rfl
  · intro R _ tool id now
    cases hfp : tool.frame_pending <;>
      simp [postToolCleanup, ToolInfo.takeTimeout, hfp, isToolFrame]

/-! ## Claim C5 — frame coalescing -/

/-- The frames the pending-frame machinery emits over a timestamp
sequence, together with the final pending timestamp: each new timestamp
replaces the pending one, emitting the old one exactly when it differs. -/
def pendingFrames : Option Nat → List Nat → List Nat × Option Nat
  | p, [] => ([], p)
  | p, t :: rest =>
    let emit : List Nat :=
      match p with
      | some last => if last = t then [] else [last]
      | none => []
    let r := pendingFrames (some t) rest
    (emit ++ r.1, r.2)

/-- `set_phase` never emits a `Frame` event. -/
theorem framesOf_setPhase {R : Type} [LinearOrderedField R]
    (tool : ToolInfo R) (id : ID) (phase : Phase) :
    framesOf (tool.setPhase id phase).2 = [] := by
  cases h : tool.phase <;> cases phase <;>
    simp [ToolInfo.setPhase, framesOf, h]

/-- One motion step emits a frame exactly when a pending timestamp differs
from the event's, and leaves the event's timestamp pending. -/
theorem toolMotionStep_frames {R : Type} [LinearOrderedField R]
    (tool : ToolInfo R) (id : ID) (m : XMotion) :
    framesOf (toolMotionStep tool id m).2 =
      (match tool.frame_pending with
       | some last => if last = m.time then [] else [last]
       | none => []) ∧
    (toolMotionStep tool id m).1.frame_pending = some m.time := by
  cases hfp : tool.frame_pending with
  | none =>
    constructor <;>
      · unfold toolMotionStep ToolInfo.ensureIn
        rw [hfp]
        by_cases h : tool.phase = Phase.Out <;> simp [h, framesOf]
  | some last =>
    constructor <;>
      · unfold toolMotionStep ToolInfo.ensureIn
        rw [hfp]
        by_cases h : tool.phase = Phase.Out <;>
          by_cases ht : last = m.time <;> simp [h, ht, framesOf]

/-- `framesOf` distributes over append. -/
theorem framesOf_append {R : Type} [LinearOrderedField R]
    (a b : List (RawEvent R)) :
    framesOf (a ++ b) = framesOf a ++ framesOf b := by
  simp [framesOf]

/-- `framesOf` of a single frame event. -/
theorem framesOf_frame {R : Type} [LinearOrderedField R] (id : ID) (t : Nat) :
    framesOf [RawEvent.Tool (R := R) id (ToolEvent.Frame (some t))] = [t] := rfl

/-- `framesOf` of the empty batch. -/
theorem framesOf_nil {R : Type} [LinearOrderedField R] :
    framesOf ([] : List (RawEvent R)) = [] := rfl

/-- `framesOf` pulls a leading frame event off the batch. -/
theorem framesOf_cons_frame {R : Type} [LinearOrderedField R]
    (id : ID) (t : Nat) (l : List (RawEvent R)) :
    framesOf (RawEvent.Tool (R := R) id (ToolEvent.Frame (some t)) :: l) =
      t :: framesOf l := by
  simp [framesOf]

/-- A tool button event is not a frame. -/
theorem framesOf_button_event {R : Type} [LinearOrderedField R]
    (id : ID) (d : Nat) (b : Bool) :
    framesOf [RawEvent.Tool (R := R) id (ToolEvent.Button d b)] = [] := rfl

/-- A pad event is not a tool frame. -/
theorem framesOf_pad_event {R : Type} [LinearOrderedField R]
    (p : ID) (e : PadEvent R) :
    framesOf [RawEvent.Pad p e] = [] := rfl

/-- `ensure_in` emits no frame and leaves the pending slot untouched. -/
theorem ensureIn_no_frames {R : Type} [LinearOrderedField R]
    (tool : ToolInfo R) (id : ID) :
    framesOf (tool.ensureIn id).2 = [] ∧
    (tool.ensureIn id).1.frame_pending = tool.frame_pending := by
  unfold ToolInfo.ensureIn
  by_cases h : tool.phase = Phase.Out <;> simp [h, framesOf]

/-- `set_phase` leaves the pending slot untouched. -/
theorem setPhase_frame_pending {R : Type} [LinearOrderedField R]
    (tool : ToolInfo R) (id : ID) (phase : Phase) :
    (tool.setPhase id phase).1.frame_pending = tool.frame_pending := rfl

/-- A button step emits no frame and leaves the pending slot untouched. -/
theorem toolButtonStep_frames {R : Type} [LinearOrderedField R]
    (tool : ToolInfo R) (id : ID) (detail : Nat) (pressed : Bool) :
    framesOf (toolButtonStep tool id detail pressed).2 = [] ∧
    (toolButtonStep tool id detail pressed).1.frame_pending = tool.frame_pending := by
  unfold toolButtonStep
  dsimp only
  by_cases h0 : detail = 0
  · simp [h0, framesOf_append, (ensureIn_no_frames tool id).1,
      (ensureIn_no_frames tool id).2, framesOf_nil]
  · by_cases h1 : detail = 1
    · simp [h0, h1, framesOf_append, (ensureIn_no_frames tool id).1,
        (ensureIn_no_frames tool id).2, framesOf_setPhase, setPhase_frame_pending]
    · simp [h0, h1, framesOf_append, (ensureIn_no_frames tool id).1,
        (ensureIn_no_frames tool id).2, framesOf_button_event]

/-- `handleButton` acts on a resolved (in-range) tool exactly through
`toolButtonStep`: the same tool update and the same pushed events. -/
theorem handleButton_tool_step {R : Type} [LinearOrderedField R]
    (st : Manager R) (pressed : Bool) (deviceid time detail : Nat)
    (id : ID) (tool : ToolInfo R)
    (h : toolInfoFromDeviceId deviceid st.tool_infos st.device_generation =
      some (id, tool))
    (hd : detail < 2 ^ 16) :
    handleButton st pressed deviceid time detail false =
      { st with
        server_time := time
        tool_infos :=
          updateAssoc st.tool_infos id (toolButtonStep tool id detail pressed).1
        events := st.events ++ (toolButtonStep tool id detail pressed).2 } := by
  unfold handleButton toolButtonStep
  dsimp only
  rw [if_neg Bool.false_ne_true, h]
  dsimp only
  rw [if_pos hd]
  simp [List.append_assoc]

/-- The frames emitted by a pose/button batch are exactly `pendingFrames`
of its motion timestamps, and the final pending timestamp matches. -/
theorem runToolMutations_frames {R : Type} [LinearOrderedField R]
    (id : ID) (us : List ToolMutation) (tool : ToolInfo R) :
    framesOf (runToolMutations tool id us).2 =
      (pendingFrames tool.frame_pending (motionTimes us)).1 ∧
    (runToolMutations tool id us).1.frame_pending =
      (pendingFrames tool.frame_pending (motionTimes us)).2 := by
  induction us generalizing tool with
  | nil => exact ⟨rfl, rfl⟩
  | cons u us ih =>
    cases u with
    | motion m =>
      have hstep := toolMotionStep_frames tool id m
      have hrest := ih (toolMotionStep tool id m).1
      rw [hstep.2] at hrest
      simp only [runToolMutations, toolMutationStep, motionTimes]
      constructor
      · rw [framesOf_append, hstep.1, hrest.1]
        simp [pendingFrames]
      · rw [hrest.2]
        simp [pendingFrames]
    | button tb detail pressed =>
      have hstep := toolButtonStep_frames tool id detail pressed
      have hrest := ih (toolButtonStep tool id detail pressed).1
      rw [hstep.2] at hrest
      simp only [runToolMutations, toolMutationStep, motionTimes]
      constructor
      · rw [framesOf_append, hstep.1, hrest.1]
        simp
      · exact hrest.2

/-- The tick-end cleanup flushes exactly the pending timestamp as a frame
(the timeout path adds no frames). -/
theorem postToolCleanup_frames {R : Type} [LinearOrderedField R]
    (tool : ToolInfo R) (id : ID) (now : Nat) :
    framesOf (postToolCleanup tool id now).2 = tool.frame_pending.toList := by
  unfold postToolCleanup
  cases hfp : tool.frame_pending with
  | none =>
    dsimp only
    cases htm : (ToolInfo.takeTimeout tool now).2 <;>
      simp [htm, framesOf_append, framesOf_setPhase, framesOf_nil]
  | some t =>
    dsimp only
    cases htm : (ToolInfo.takeTimeout { tool with frame_pending := none } now).2 <;>
      simp [htm, framesOf_cons_frame, framesOf_setPhase, framesOf_frame, framesOf_nil]

/-- `pendingFrames` followed by the final flush is exactly the collapse of
the timestamp list (a pending head collapses into it). -/
theorem pendingFrames_some_collapse (t : Nat) (ts : List Nat) :
    (pendingFrames (some t) ts).1 ++ (pendingFrames (some t) ts).2.toList =
      collapseConsecutive (t :: ts) := by
  induction ts generalizing t with
  | nil => rfl
  | cons u rest ih =>
    by_cases h : t = u <;>
      simp [pendingFrames, collapseConsecutive, h, ih u]

/-- `pendingFrames` from an empty pending slot, flushed, is the collapse. -/
theorem pendingFrames_none_collapse (ts : List Nat) :
    (pendingFrames none ts).1 ++ (pendingFrames none ts).2.toList =
      collapseConsecutive ts := by
  cases ts with
  | nil => rfl
  | cons t rest =>
    have := pendingFrames_some_collapse t rest
    simpa [pendingFrames, collapseConsecutive] using this

/-- Claim C5: within one tick, the `Frame` events a tool's pose/button
mutation batch produces (including the tick-end flush) are exactly one per
run of equal consecutive motion timestamps, carrying that run's timestamp.
Button mutations never touch the frame machinery: `handleButton` adds no
`Frame` event to the batch, and the button step leaves `frame_pending`
untouched, so same-timestamp bursts — with or without buttons interleaved
— yield at most one frame, emitted only once a motion at a different
timestamp arrives or at the tick-end flush, carrying the earlier
timestamp. -/
theorem tool_frame_coalescing :
    (∀ (R : Type) [LinearOrderedField R] (tool : ToolInfo R) (id : ID)
       (us : List ToolMutation) (now : Nat), tool.frame_pending = none →
       framesOf (toolTickEvents tool id us now) =
         collapseConsecutive (motionTimes us)) ∧
    (∀ (R : Type) [LinearOrderedField R] (st : Manager R) (pressed : Bool)
       (deviceid time detail : Nat) (pointer_emulated : Bool),
       framesOf (handleButton st pressed deviceid time detail
           pointer_emulated).events =
         framesOf st.events) ∧
    (∀ (R : Type) [LinearOrderedField R] (tool : ToolInfo R) (id : ID)
       (detail : Nat) (pressed : Bool),
       framesOf (toolButtonStep tool id detail pressed).2 = [] ∧
       (toolButtonStep tool id detail pressed).1.frame_pending =
         tool.frame_pending) ∧
    (∀ (R : Type) [LinearOrderedField R] (tool : ToolInfo R) (id : ID)
       (m1 m2 : XMotion), tool.frame_pending = none → m1.time = m2.time →
       framesOf (runToolMutations tool id
         [ToolMutation.motion m1, ToolMutation.motion m2]).2 = []) ∧
    (∀ (R : Type) [LinearOrderedField R] (tool : ToolInfo R) (id : ID)
       (m1 m2 : XMotion) (tb db : Nat) (pb : Bool),
       tool.frame_pending = none → m1.time = m2.time →
       framesOf (runToolMutations tool id
         [ToolMutation.motion m1, ToolMutation.button tb db pb,
          ToolMutation.motion m2]).2 = []) ∧
    (∀ (R : Type) [LinearOrderedField R] (tool : ToolInfo R) (id : ID)
       (m1 m2 : XMotion), tool.frame_pending = none → m1.time ≠ m2.time →
       framesOf (runToolMutations tool id
         [ToolMutation.motion m1, ToolMutation.motion m2]).2 = [m1.time]) := by
  refine ⟨?_, ?_, ?_, ?_, ?_, ?_⟩
  · intro R _ tool id us now hfp
    have hrun := runToolMutations_frames id us tool
    rw [hfp] at hrun
    unfold toolTickEvents
    rw [framesOf_append, hrun.1, postToolCleanup_frames, hrun.2]
    exact pendingFrames_none_collapse _
  · intro R _ st pressed deviceid time detail pe
    unfold handleButton
    dsimp only
    split
    · rfl
    · split
      · rename_i id tool _
        split
        · by_cases h0 : detail = 0
          · simp [h0, framesOf_append, ensureIn_no_frames, framesOf_nil]
          · by_cases h1 : detail = 1
            · simp [h0, h1, framesOf_append, ensureIn_no_frames,
                framesOf_setPhase]
            · simp [h0, h1, framesOf_append, ensureIn_no_frames,
                framesOf_button_event]
        · rfl
      · split
        · split
          · rfl
          · simp [framesOf_append, framesOf_pad_event]
        · rfl
  · intro R _ tool id detail pressed
    exact toolButtonStep_frames tool id detail pressed
  · intro R _ tool id m1 m2 hfp h
    have hrun := runToolMutations_frames id
      [ToolMutation.motion m1, ToolMutation.motion m2] tool
    rw [hfp] at hrun
    rw [hrun.1]
    simp [pendingFrames, motionTimes, h]
  · intro R _ tool id m1 m2 tb db pb hfp h
    have hrun := runToolMutations_frames id
      [ToolMutation.motion m1, ToolMutation.button tb db pb,
       ToolMutation.motion m2] tool
    rw [hfp] at hrun
    rw [hrun.1]
    simp [pendingFrames, motionTimes, h]
  · intro R _ tool id m1 m2 hfp h
    have hrun := runToolMutations_frames id
      [ToolMutation.motion m1, ToolMutation.motion m2] tool
    rw [hfp] at hrun
    rw [hrun.1]
    simp [pendingFrames, motionTimes, h]

/-- Concrete single-tool state used by the C5 witness. -/
def toolC5 : ToolInfo ℚ :=
  ⟨none, none, none, none, ID.EmulatedTablet, Phase.Out, 0, 0, false, none, none⟩

/-- A motion event at the given timestamp with an empty valuator report. -/
def motionAt (t : Nat) : XMotion := ⟨3, t, [], [], 0, 0⟩

/-- The mixed pose/button batch used by the C5 witness: motions at
timestamps 5, 5, 7 with a barrel-button press interleaved. -/
def mutsC5 : List ToolMutation :=
  [ToolMutation.motion (motionAt 5), ToolMutation.button 5 2 true,
   ToolMutation.motion (motionAt 5), ToolMutation.motion (motionAt 7)]

/-- Witness for C5: the mixed tick `mutsC5` yields frames `[5, 7]`, and a
same-timestamp motion pair with a button in between emits no frame. -/
theorem tool_frame_coalescing_witness :
    toolC5.frame_pending = none ∧
    (motionAt 5).time = (motionAt 5).time ∧
    framesOf (toolTickEvents toolC5 (ID.id 0 3) mutsC5 7) =
      collapseConsecutive (motionTimes mutsC5) ∧
    collapseConsecutive (motionTimes mutsC5) = [5, 7] ∧
    framesOf (runToolMutations toolC5 (ID.id 0 3)
        [ToolMutation.motion (motionAt 5), ToolMutation.button 6 2 true,
         ToolMutation.motion (motionAt 5)]).2 = [] :=
  ⟨rfl, rfl,
   tool_frame_coalescing.1 ℚ toolC5 (ID.id 0 3) mutsC5 7 rfl,
   by decide,
   tool_frame_coalescing.2.2.2.2.1 ℚ toolC5 (ID.id 0 3) (motionAt 5)
     (motionAt 5) 6 2 true rfl rfl⟩

/-! ## Claim C6 — derivation of the axis transforms

The `f32` constants are idealised: `1.0f32.to_radians()` as `π / 180` and
`TAU` as `2π`. -/

/-- `1.0f32.to_radians()`: one degree in radians. -/
noncomputable def oneDegreeInRadians : ℝ := Real.pi / 180

/-- `std::f32::consts::TAU`. -/
noncomputable def tauReal : ℝ := 2 * Real.pi

/-- Counterexample to claim C6 as stated: the ring transform derived for
range `[0, 1]` maps the in-range value `1` (the maximum) to exactly `2π`,
which does not lie in the half-open interval `[0, 2π)`. -/
theorem ring_transform_counterexample :
    (1 : ℝ) ∈ Set.Icc (0 : ℝ) 1 ∧
    (ringTransform tauReal (0 : ℝ) 1).transform 1 = 2 * Real.pi ∧
    ¬(ringTransform tauReal (0 : ℝ) 1).transform 1 < 2 * Real.pi := by
  refine ⟨?_, ?_, ?_⟩
  · constructor <;> norm_num
  · simp [ringTransform, Transform.transform, tauReal]
  · simp [ringTransform, Transform.transform, tauReal]

/-- Claim C6 (amended): for a valuator with reported range `[min, max]`,
`min ≠ max`, the derived transforms satisfy: pressure maps `min ↦ 0` and
`max ↦ 1`; tilt is pure scaling by one degree in radians (bias 0); the
ring maps every value of `[min, max]` into the *closed* interval
`[0, 2π]`, with `max` mapping to exactly `2π` (not into the half-open
`[0, 2π)` as claimed); and a valuator whose reported `min` equals its
`max` is skipped entirely by both the tool scan and the pad scan. -/
theorem axis_transforms_amended :
    (∀ min max : ℝ, min ≠ max →
       (pressureTransform min max).transform min = 0 ∧
       (pressureTransform min max).transform max = 1) ∧
    (∀ v : ℝ, (tiltTransform oneDegreeInRadians).transform v = v * (Real.pi / 180)) ∧
    (∀ min max v : ℝ, min < max → min ≤ v → v ≤ max →
       (0 ≤ (ringTransform tauReal min max).transform v ∧
        (ringTransform tauReal min max).transform v ≤ 2 * Real.pi) ∧
       (ringTransform tauReal min max).transform max = 2 * Real.pi) ∧
    (∀ (R : Type) [LinearOrderedField R] (an : Nat → Option (List Char)) (dr : R)
       (acc : ToolInfo R × Tool R) (l k : Nat) (fp : Fp3232),
       scanToolClass an dr acc (DeviceClassData.Valuator ⟨true, l, fp, fp, k⟩) = acc) ∧
    (∀ (R : Type) [LinearOrderedField R] (an : Nat → Option (List Char)) (tau : R)
       (acc : Nat × Option (AxisInfo R)) (l k : Nat) (fp : Fp3232),
       scanPadClass an tau acc (DeviceClassData.Valuator ⟨true, l, fp, fp, k⟩) = acc) := by
  refine ⟨?_, ?_, ?_, ?_, ?_⟩
  · intro min max h
    have hd : max - min ≠ 0 := sub_ne_zero.mpr (Ne.symm h)
    constructor
    · simp [pressureTransform, Transform.transform]
    · simp only [pressureTransform, Transform.transform, ← sub_eq_add_neg]
      field_simp
  · intro v
    simp [tiltTransform, Transform.transform, oneDegreeInRadians]
  · intro min max v h1 h2 h3
    have hd : (0 : ℝ) < max - min := sub_pos.mpr h1
    have hπ : (0 : ℝ) < Real.pi := Real.pi_pos
    have hscale : (0 : ℝ) ≤ tauReal / (max - min) := by
      unfold tauReal; positivity
    have hcancel : (max - min) * (tauReal / (max - min)) = 2 * Real.pi := by
      unfold tauReal
      field_simp
    refine ⟨⟨?_, ?_⟩, ?_⟩
    · simp only [ringTransform, Transform.transform, ← sub_eq_add_neg]
      exact mul_nonneg (by linarith) hscale
    · simp only [ringTransform, Transform.transform, ← sub_eq_add_neg]
      calc (v - min) * (tauReal / (max - min))
          ≤ (max - min) * (tauReal / (max - min)) :=
            mul_le_mul_of_nonneg_right (by linarith) hscale
        _ = 2 * Real.pi := hcancel
    · simp only [ringTransform, Transform.transform, ← sub_eq_add_neg]
      exact hcancel
  · intro R _ an dr acc l k fp
    simp [scanToolClass]
  · intro R _ an tau acc l k fp
    unfold scanPadClass
    dsimp only
    cases (an l).bind parseValuatorAxis with
    | none => simp
    | some label => cases label <;> simp

/-- Witness for C6 at the pressure/ring range `[0, 1]` and value `1/2`. -/
theorem axis_transforms_amended_witness :
    ((0 : ℝ) ≠ 1 ∧
     (pressureTransform (0 : ℝ) 1).transform 0 = 0 ∧
     (pressureTransform (0 : ℝ) 1).transform 1 = 1) ∧
    ((0 : ℝ) < 1 ∧ (0 : ℝ) ≤ 1 / 2 ∧ (1 / 2 : ℝ) ≤ 1 ∧
     ((0 ≤ (ringTransform tauReal (0 : ℝ) 1).transform (1 / 2) ∧
       (ringTransform tauReal (0 : ℝ) 1).transform (1 / 2) ≤ 2 * Real.pi) ∧
      (ringTransform tauReal (0 : ℝ) 1).transform 1 = 2 * Real.pi)) :=
  ⟨⟨zero_ne_one, axis_transforms_amended.1 0 1 zero_ne_one⟩,
   ⟨zero_lt_one, one_half_pos.le, one_half_lt_one.le,
    axis_transforms_amended.2.2.1 0 1 (1 / 2) zero_lt_one one_half_pos.le
      one_half_lt_one.le⟩⟩

/-! ## Claim C3 — the generation counter is never incremented

The `device_generation` field is documented to be bumped when devices are
invalidated, but no code path ever writes it. -/

/-- `repopulate` leaves the generation counter untouched. -/
theorem repopulate_generation {R : Type} [LinearOrderedField R]
    (st : Manager R) (snap : Snapshot) (dr tau : R) :
    (st.repopulate snap dr tau).1.device_generation = st.device_generation := by
  unfold Manager.repopulate
  dsimp only
  split <;> rfl

/-- `try_pad` leaves the generation counter untouched. -/
theorem tryPadMotion_generation {R : Type} [LinearOrderedField R]
    (st : Manager R) (m : XMotion) :
    (tryPadMotion st m).device_generation = st.device_generation := by
  unfold tryPadMotion
  split
  · rfl
  · split
    · rfl
    · rfl

/-- A successful `try_tool` leaves the generation counter untouched. -/
theorem tryToolMotion_generation {R : Type} [LinearOrderedField R]
    (st : Manager R) (m : XMotion) (st2 : Manager R)
    (h : tryToolMotion st m = some st2) :
    st2.device_generation = st.device_generation := by
  unfold tryToolMotion at h
  cases hl : toolInfoFromDeviceId m.deviceid st.tool_infos st.device_generation with
  | none => rw [hl] at h; exact absurd h (by simp)
  | some found =>
    rw [hl] at h
    simp only [Option.map_some', Option.some.injEq] at h
    rw [← h]

/-- The motion arm leaves the generation counter untouched. -/
theorem handleMotion_generation {R : Type} [LinearOrderedField R]
    (st : Manager R) (m : XMotion) :
    (handleMotion st m).device_generation = st.device_generation := by
  unfold handleMotion
  dsimp only
  cases h : tryToolMotion { st with server_time := m.time } m with
  | none => exact tryPadMotion_generation { st with server_time := m.time } m
  | some st2 =>
    exact tryToolMotion_generation { st with server_time := m.time } m st2 h

/-- The button arm leaves the generation counter untouched. -/
theorem handleButton_generation {R : Type} [LinearOrderedField R]
    (st : Manager R) (pressed : Bool) (deviceid time detail : Nat)
    (pointer_emulated : Bool) :
    (handleButton st pressed deviceid time detail pointer_emulated).device_generation =
      st.device_generation := by
  unfold handleButton
  dsimp only
  split
  · rfl
  · split
    · split
      · rfl
      · rfl
    · split
      · split
        · rfl
        · rfl
      · rfl

/-- Grab arbitration leaves the generation counter untouched. -/
theorem parentEntered_generation {R : Type} [LinearOrderedField R]
    (st : Manager R) (snap : Snapshot) (master time : Nat) :
    (parentEntered st snap master time).device_generation = st.device_generation := rfl

/-- Grab release leaves the generation counter untouched. -/
theorem parentLeft_generation {R : Type} [LinearOrderedField R]
    (st : Manager R) (snap : Snapshot) (master time : Nat) :
    (parentLeft st snap master time).device_generation = st.device_generation := rfl

/-- One pump dispatch step leaves the generation counter untouched. -/
theorem handleXEvent_generation {R : Type} [LinearOrderedField R]
    (snap : Snapshot) (dr tau : R) (acc : Manager R × Bool) (e : XEvent) :
    (handleXEvent snap dr tau acc e).1.device_generation = acc.1.device_generation := by
  cases e with
  | Hierarchy time =>
    unfold handleXEvent
    dsimp only
    split
    · rfl
    · rw [repopulate_generation]
  | DeviceChanged r => rfl
  | LeaveOrFocusOut d t => exact parentLeft_generation _ _ _ _
  | EnterOrFocusIn d t => exact parentEntered_generation _ _ _ _
  | ButtonEvent pressed d t detail e => exact handleButton_generation _ _ _ _ _ _
  | Motion m => exact handleMotion_generation _ _
  | other => rfl

/-- The tick-end cleanup leaves the generation counter untouched. -/
theorem postFrameCleanup_generation {R : Type} [LinearOrderedField R]
    (st : Manager R) :
    (postFrameCleanup st).device_generation = st.device_generation := rfl

/-- A whole pump tick leaves the generation counter untouched. -/
theorem pump_generation {R : Type} [LinearOrderedField R]
    (st : Manager R) (snap : Snapshot) (dr tau : R) (queued : List XEvent) :
    (st.pump snap dr tau queued).device_generation = st.device_generation := by
  unfold Manager.pump
  dsimp only
  rw [postFrameCleanup_generation]
  suffices h : ∀ (evs : List XEvent) (acc : Manager R × Bool),
      (evs.foldl (handleXEvent snap dr tau) acc).1.device_generation =
        acc.1.device_generation by
    rw [h]
    rfl
  intro evs
  induction evs with
  | nil => intro acc; rfl
  | cons e es ih =>
    intro acc
    rw [List.foldl_cons, ih, handleXEvent_generation]

/-- Claim C3 (code bug): the device-id generation counter is never
incremented — neither by `repopulate` (triggered by a hierarchy change
inside `pump`) nor anywhere else in a pump tick — even though its doc
comment promises an increment when devices are invalidated. Ids issued
before and after a hierarchy-triggered rebuild therefore carry the *same*
generation, not a strictly older one. -/
theorem device_generation_never_incremented :
    (∀ (R : Type) [LinearOrderedField R] (st : Manager R) (snap : Snapshot)
       (dr tau : R),
       (st.repopulate snap dr tau).1.device_generation = st.device_generation) ∧
    (∀ (R : Type) [LinearOrderedField R] (st : Manager R) (snap : Snapshot)
       (dr tau : R) (queued : List XEvent),
       (st.pump snap dr tau queued).device_generation = st.device_generation) :=
  ⟨fun _ _ st snap dr tau => repopulate_generation st snap dr tau,
   fun _ _ st snap dr tau queued => pump_generation st snap dr tau queued⟩

/-! ## Claim C4 — pad tablet references are not re-resolved

The tool loop rewrites a dangling tablet reference to the sentinel; the
pad loop only raises the dummy-tablet flag and leaves the dangling
reference in place. -/

/-- A snapshot with a pad `"Foo Pad"` whose name-derived tablet candidate
`"Foo Pen"` matches the *stylus* device 3, which never becomes a `Tablet`:
the pad's tablet reference dangles after the pass. -/
def snapC4 : Snapshot :=
  { queries :=
      [⟨2, XiDeviceType.SlavePointer, 0, "Foo Pad".toList, [DeviceClassData.Button 3]⟩,
       ⟨3, XiDeviceType.SlavePointer, 0, "Foo Pen".toList, []⟩]
    devices :=
      [("Foo Pad".toList, ⟨2, 7⟩), ("Foo Pen".toList, ⟨3, 8⟩)]
    atomName := fun a =>
      if a = 7 then some ("PAD".toList)
      else if a = 8 then some ("STYLUS".toList)
      else none
    usbProp := fun _ _ => none
    grabOk := fun _ _ => false
    ungrabOk := fun _ _ => false }

/-- Claim C4 (code bug): the pad half of the re-resolution never rewrites
the pad's tablet id (it only raises the dummy-tablet flag), so after the
pass on `snapC4` the pad still refers to device 3 even though no tablet
with that id survived — only the synthetic tablet is in the registry, and
the dangling reference is not the sentinel. -/
theorem pad_tablet_reference_not_rewritten :
    (∀ (R : Type) [LinearOrderedField R] (tablets : List Tablet) (pad : PadInfo R),
       (resolvePadTablet tablets pad).1 = pad) ∧
    ((Manager.fresh ℚ).repopulate snapC4 0 0).1.pad_infos.map
        (fun p => (p.1, p.2.tablet)) = [(ID.id 0 2, ID.id 0 3)] ∧
    tabletsContainDeviceId ((Manager.fresh ℚ).repopulate snapC4 0 0).1.tablets 3 =
      false ∧
    ((Manager.fresh ℚ).repopulate snapC4 0 0).1.tablets = [emulatedTabletRecord] ∧
    ID.id 0 3 ≠ ID.EmulatedTablet := by
  exact ⟨fun _ _ tablets pad => rfl, by decide, by decide, by decide, by decide⟩

/-! ## Claim C9 — the interest-registration skip checks only tools -/

/-- A snapshot that classifies one pad and no tools. -/
def snapC9 : Snapshot :=
  { queries :=
      [⟨2, XiDeviceType.SlavePointer, 0, "Foo Pad".toList, [DeviceClassData.Button 3]⟩]
    devices := [("Foo Pad".toList, ⟨2, 7⟩)]
    atomName := fun a => if a = 7 then some ("PAD".toList) else none
    usbProp := fun _ _ => none
    grabOk := fun _ _ => false
    ungrabOk := fun _ _ => false }

/-- Claim C9 (code bug): whenever the request is issued it does carry one
mask per classified tool and pad (plus the all-master wildcard), but the
skip condition tests only `tool_listen_events`: on `snapC9`, which
classifies a pad and no tool, the bulk interest request is skipped even
though a pad device was classified — contradicting the claimed
"skip iff no tool *and* no pad". -/
theorem interest_skip_checks_only_tools :
    (∀ tool_listen_events pad_listen_events : List Nat,
       (buildInterest tool_listen_events pad_listen_events).map EventMask.deviceid =
         tool_listen_events ++ pad_listen_events ++ [XI_ALL_MASTER_DEVICES]) ∧
    ((Manager.fresh ℚ).repopulate snapC9 0 0).2 = none ∧
    ((Manager.fresh ℚ).repopulate snapC9 0 0).1.pads.length = 1 := by
  refine ⟨?_, by decide, by decide⟩
  intro tools pads
  have ht : EventMask.deviceid ∘ toolMask = fun d => d := funext (fun _ => rfl)
  have hp : EventMask.deviceid ∘ padMask = fun d => d := funext (fun _ => rfl)
  simp [buildInterest, allMasterMask, ht, hp]

end XI2
